import Mathlib

/-!
Shallow embedding of the Fun Profile SSO SDK client (`FunProfileClient` and
its collaborators), used to check the repository's specification claims.
Network I/O and the token store are made explicit: every operation is a pure
function of the current time, the stored token record and the (possibly
failing) server response, and returns its result together with the store
contents afterwards, the network requests it issued and the store
operations it performed.  Timestamps are integral milliseconds, as in the
source (`Date.now()`).
-/

/-- OAuth token record persisted through the `TokenStorage` contract
(`TokenData` in `types.ts`). -/
structure TokenData where
  accessToken : String
  refreshToken : String
  expiresAt : Int
  scope : List String
deriving DecidableEq

/-- Typed failures of the SDK (the `errors.ts` class hierarchy as consumed
by the main client; only the constructor identity and the carried message
matter for the claims, so messages are kept as the possibly-absent strings
the call sites pass). -/
inductive SDKError where
  | validationError (msg : Option String)
  | tokenExpiredError
  | invalidTokenError (msg : Option String)
  | rateLimitError (retryAfter : Nat)
  | networkError (msg : String)
  | funProfileError (code : String) (desc : String)
deriving DecidableEq

/-- Structured error body extracted from a non-2xx JSON response. -/
structure ErrorBody where
  error : Option String
  error_description : Option String
deriving DecidableEq

/-- JavaScript `x || dflt` for an optional string: `undefined` and the empty
string are both falsy. -/
def jsOrString : Option String → String → String
  | some s, dflt => if s = "" then dflt else s
  | none, dflt => dflt

/-- `FunProfileClient.handleError`: maps the HTTP status and the parsed
error body of a non-ok response to the typed failure the transport raises.
The `Retry-After` header is modelled by its parsed value
(`parseInt(header || '60', 10)`). -/
def handleError (status : Nat) (retryAfter : Option Nat) (body : ErrorBody) : SDKError :=
  if status = 401 then .invalidTokenError body.error_description
  else if status = 429 then .rateLimitError (retryAfter.getD 60)
  else if status = 400 then
    .validationError (some (jsOrString body.error_description "Validation failed"))
  else
    .funProfileError (jsOrString body.error "unknown_error")
      (jsOrString body.error_description ("Request failed with status " ++ toString status))

/-- JSON body of a successful `refresh_token` grant response. -/
structure RefreshResponse where
  access_token : String
  refresh_token : Option String
  expires_in : Int
  scope : Option String
deriving DecidableEq

/-- A network request issued by the client, identified by its endpoint and
the payload fields the claims are about. -/
inductive NetRequest where
  | refreshGrant (refreshToken : String)
  | tokenExchange (code : String) (verifier : String)
  | revoke (accessToken : String)
  | syncWrite
deriving DecidableEq

/-- An operation performed on the token store. -/
inductive StoreOp where
  | set (t : TokenData)
  | clear
deriving DecidableEq

/-- The new token record built by `FunProfileClient.refreshTokens` from the
previous record and a successful refresh response:
`refreshToken: response.refresh_token || tokens.refreshToken`,
`expiresAt: Date.now() + response.expires_in * 1000`,
`scope: response.scope?.split(' ') || tokens.scope`. -/
def newTokensFromRefresh (now : Int) (tokens : TokenData) (resp : RefreshResponse) : TokenData :=
  { accessToken := resp.access_token
    refreshToken := jsOrString resp.refresh_token tokens.refreshToken
    expiresAt := now + resp.expires_in * 1000
    scope := match resp.scope with
      | some s => s.splitOn " "
      | none => tokens.scope }

/-- Outcome of `refreshTokens`: the returned value or the thrown failure,
the store contents afterwards, the network requests issued and the store
operations performed. -/
structure RefreshOutcome where
  result : Except SDKError TokenData
  store : Option TokenData
  requests : List NetRequest
  storeOps : List StoreOp

/-- `FunProfileClient.refreshTokens`, with the token endpoint's behaviour
passed in as `server`: either the parsed JSON body of an ok response, or the
typed failure the transport raises for a failing one. -/
def refreshTokens (now : Int) (store : Option TokenData)
    (server : Except SDKError RefreshResponse) : RefreshOutcome :=
  match store with
  | none => ⟨.error (.invalidTokenError (some "No tokens available")), none, [], []⟩
  | some tokens =>
    match server with
    | .error e => ⟨.error e, some tokens, [.refreshGrant tokens.refreshToken], []⟩
    | .ok resp =>
      let newTokens := newTokensFromRefresh now tokens resp
      ⟨.ok newTokens, some newTokens, [.refreshGrant tokens.refreshToken], [.set newTokens]⟩

/-- Outcome of `getAccessToken`: the result is `string | null`, so a missing
record yields `ok none` rather than a failure. -/
structure TokenQueryOutcome where
  result : Except SDKError (Option String)
  store : Option TokenData
  requests : List NetRequest
  storeOps : List StoreOp

/-- `FunProfileClient.getAccessToken`.  `buffer` is `TOKEN_REFRESH_BUFFER`
(defined in `constants.ts`), kept as a parameter; the record is stale iff
`now >= expiresAt - buffer`. -/
def getAccessToken (now buffer : Int) (autoRefresh : Bool) (store : Option TokenData)
    (server : Except SDKError RefreshResponse) : TokenQueryOutcome :=
  match store with
  | none => ⟨.ok none, none, [], []⟩
  | some tokens =>
    if now ≥ tokens.expiresAt - buffer then
      if autoRefresh then
        let r := refreshTokens now (some tokens) server
        match r.result with
        | .ok newTokens => ⟨.ok (some newTokens.accessToken), r.store, r.requests, r.storeOps⟩
        | .error e => ⟨.error e, r.store, r.requests, r.storeOps⟩
      else ⟨.error .tokenExpiredError, some tokens, [], []⟩
    else ⟨.ok (some tokens.accessToken), some tokens, [], []⟩

/-- Outcome of the boolean `isAuthenticated` query. -/
structure AuthCheckOutcome where
  result : Except SDKError Bool
  store : Option TokenData
  requests : List NetRequest

/-- `FunProfileClient.isAuthenticated`: the boolean freshness query; a
failing auto-refresh is caught and reported as `false`. -/
def isAuthenticated (now buffer : Int) (autoRefresh : Bool) (store : Option TokenData)
    (server : Except SDKError RefreshResponse) : AuthCheckOutcome :=
  match store with
  | none => ⟨.ok false, none, []⟩
  | some tokens =>
    if now ≥ tokens.expiresAt - buffer then
      if autoRefresh then
        let r := refreshTokens now (some tokens) server
        match r.result with
        | .ok _ => ⟨.ok true, r.store, r.requests⟩
        | .error _ => ⟨.ok false, r.store, r.requests⟩
      else ⟨.ok false, some tokens, []⟩
    else ⟨.ok true, some tokens, []⟩

/-- The access-token check at the top of
`FunProfileClient.authenticatedRequest`: a `null` token is converted into
`InvalidTokenError('Not authenticated')`. -/
def authenticatedRequestToken : Except SDKError (Option String) → Except SDKError String
  | .error e => .error e
  | .ok none => .error (.invalidTokenError (some "Not authenticated"))
  | .ok (some t) => .ok t

/-- Modelled from the spec: `pkce.ts` is not under `src/`.  The pending
`PendingAuthRequest` table is a list of `(state, verifier)` pairs;
resolving a state returns the verifier correlated with it, or nothing for
an unknown or already-consumed state (the call site in `handleCallback`
checks the resolved value for null). -/
def lookupVerifier : List (String × String) → String → Option String
  | [], _ => none
  | (s, v) :: rest, q => if s = q then some v else lookupVerifier rest q

/-- Modelled from the spec: consuming a pending auth request removes its
`(state, verifier)` entry, so each correlation resolves at most once. -/
def removeVerifier : List (String × String) → String → List (String × String)
  | [], _ => []
  | (s, v) :: rest, q => if s = q then rest else (s, v) :: removeVerifier rest q

/-- JSON body of a successful `authorization_code` grant response. -/
structure TokenResponse where
  access_token : String
  refresh_token : String
  expires_in : Int
  scope : Option String
deriving DecidableEq

/-- The token record built by `FunProfileClient.handleTokenResponse`:
`scope: ((response.scope as string) || '').split(' ')`. -/
def tokensFromExchange (now : Int) (resp : TokenResponse) : TokenData :=
  { accessToken := resp.access_token
    refreshToken := resp.refresh_token
    expiresAt := now + resp.expires_in * 1000
    scope := (jsOrString resp.scope "").splitOn " " }

/-- Outcome of `handleCallback`. -/
structure CallbackOutcome where
  result : Except SDKError TokenData
  pending : List (String × String)
  store : Option TokenData
  requests : List NetRequest
  storeOps : List StoreOp

/-- `FunProfileClient.handleCallback`: resolve the verifier stored for
`oauthState` (failing closed with the CSRF `ValidationError` when none is
stored), then exchange the code at the token endpoint and store the
resulting record via `handleTokenResponse`. -/
def handleCallback (now : Int) (pending : List (String × String))
    (store : Option TokenData) (code oauthState : String)
    (server : Except SDKError TokenResponse) : CallbackOutcome :=
  match lookupVerifier pending oauthState with
  | none =>
    ⟨.error (.validationError (some "Invalid state parameter - possible CSRF attack")),
      pending, store, [], []⟩
  | some verifier =>
    let pending1 := removeVerifier pending oauthState
    match server with
    | .error e => ⟨.error e, pending1, store, [.tokenExchange code verifier], []⟩
    | .ok resp =>
      let tokens := tokensFromExchange now resp
      ⟨.ok tokens, pending1, some tokens, [.tokenExchange code verifier], [.set tokens]⟩

/-- A JSON object (`Record<string, T>`), read field-wise. -/
abbrev Obj (α : Type) := String → Option α

/-- The object with no fields. -/
def emptyObj {α : Type} : Obj α := fun _ => none

/-- Modelled from the spec: `sync-manager.ts` is not under `src/`.
Field-level shallow merge of two objects, the update's fields winning. -/
def mergeObj {α : Type} (base upd : Obj α) : Obj α := fun f =>
  match upd f with
  | some v => some v
  | none => base f

/-- The pending sync queue: one shallow-merged partial object per category
key, in first-queued category order. -/
abbrev SyncQueue (α : Type) := List (String × Obj α)

/-- The pending entry for a category. -/
def lookupCat {α : Type} : SyncQueue α → String → Option (Obj α)
  | [], _ => none
  | (c, o) :: rest, cat => if c = cat then some o else lookupCat rest cat

/-- Replace the entry for a category, or append it when absent. -/
def setCat {α : Type} : SyncQueue α → String → Obj α → SyncQueue α
  | [], cat, o => [(cat, o)]
  | (c, o1) :: rest, cat, o =>
    if c = cat then (cat, o) :: rest else (c, o1) :: setCat rest cat o

/-- Modelled from the spec: `queue(category, d)` merges `d` into the pending
entry for `category` (creating it from the empty object when absent),
field-level and last-write-wins. -/
def queueCall {α : Type} (q : SyncQueue α) (cat : String) (d : Obj α) : SyncQueue α :=
  setCat q cat (mergeObj ((lookupCat q cat).getD emptyObj) d)

/-- The pending queue after a sequence of `queue(category, data)` calls in
one debounce window, starting from an empty queue; when the window ends the
flush payload is exactly this queue (all categories in one payload). -/
def runQueue {α : Type} (calls : List (String × Obj α)) : SyncQueue α :=
  calls.foldl (fun q c => queueCall q c.1 c.2) []

/-- Field `f` of category `cat` in the flush payload. -/
def payloadAt {α : Type} (q : SyncQueue α) (cat f : String) : Option α :=
  (lookupCat q cat).bind (fun o => o f)

/-- The subsequence of data objects queued for one category, in call order. -/
def callsFor {α : Type} (cat : String) : List (String × Obj α) → List (Obj α)
  | [] => []
  | c :: rest => if c.1 = cat then c.2 :: callsFor cat rest else callsFor cat rest

/-- Specification-side merge: the last value written for a field across a
list of partial objects taken in call order. -/
def lastFieldValue {α : Type} (ds : List (Obj α)) (f : String) : Option α :=
  ds.foldl (fun acc d => match d f with | some v => some v | none => acc) none

/-- State of a `DebouncedSyncManager` (modelled from the spec:
`sync-manager.ts` is not under `src/`): the pending queue, whether a
debounce timer is armed, and the debounce interval the manager was
constructed with.  The flush callback the client passes to the constructor
performs the `syncData` network write and is modelled as the `syncWrite`
request. -/
structure DebouncedSyncManager (α : Type) where
  queue : SyncQueue α
  timerActive : Bool
  debounceMs : Nat

/-- Modelled from the spec: `hasPendingData()` is true iff the queue is
non-empty. -/
def hasPendingData {α : Type} (m : DebouncedSyncManager α) : Bool := !m.queue.isEmpty

/-- Modelled from the spec: `clear()` discards pending data without sending
it and cancels any pending timer. -/
def clearMgr {α : Type} (m : DebouncedSyncManager α) : DebouncedSyncManager α :=
  { m with queue := [], timerActive := false }

/-- Soul NFT summary (`SoulNft` in `types.ts`). -/
structure SoulNft where
  element : String
  level : Int
  tokenId : Option String
  mintedAt : Option String
deriving DecidableEq

/-- Reward balances (`UserRewards` in `types.ts`). -/
structure UserRewards where
  pending : Int
  approved : Int
  claimed : Int
  status : String
deriving DecidableEq

/-- User profile (`FunUser` in `types.ts`). -/
structure FunUser where
  id : String
  funId : String
  username : String
  fullName : Option String
  avatarUrl : Option String
  email : Option String
  walletAddress : Option String
  externalWalletAddress : Option String
  soul : Option SoulNft
  rewards : Option UserRewards
deriving DecidableEq

/-- The mutable state of a `FunProfileClient`: the token store, the cached
user profile and the lazily created sync manager. -/
structure ClientState (α : Type) where
  store : Option TokenData
  currentUser : Option FunUser
  syncManager : Option (DebouncedSyncManager α)

/-- `FunProfileClient.getSyncManager`: constructs the manager on first use
with the given debounce interval, then always returns the stored instance
(the later `debounceMs` argument is never read). -/
def getSyncManager {α : Type} (st : ClientState α) (debounceMs : Nat) :
    DebouncedSyncManager α × ClientState α :=
  match st.syncManager with
  | some m => (m, st)
  | none =>
    let m : DebouncedSyncManager α := ⟨[], false, debounceMs⟩
    (m, { st with syncManager := some m })

/-- `FunProfileClient.logout`: best-effort flush when sync data is pending
(on failure the queue is restored per the spec's flush failure policy, and
the error is swallowed), best-effort revoke when a record is stored (the
error is swallowed, so `revokeFails` has no effect on the state), then
unconditionally clear the token store, the cached user and the sync queue.
`flushFails` and `revokeFails` choose the outcomes of the two best-effort
network calls. -/
def logout {α : Type} (st : ClientState α) (flushFails revokeFails : Bool) :
    ClientState α × List NetRequest :=
  let flushStep : Option (DebouncedSyncManager α) × List NetRequest :=
    match st.syncManager with
    | none => (none, [])
    | some m =>
      if hasPendingData m then
        if flushFails then (some m, [.syncWrite])
        else (some (clearMgr m), [.syncWrite])
      else (some m, [])
  let revokeReqs : List NetRequest :=
    match st.store with
    | some t => [.revoke t.accessToken]
    | none => []
  (⟨none, none, flushStep.1.map clearMgr⟩, flushStep.2 ++ revokeReqs)

/-- The sync queue is cleared: either no manager was ever created, or the
created manager's queue is empty. -/
def syncQueueCleared {α : Type} : Option (DebouncedSyncManager α) → Bool
  | none => true
  | some m => m.queue.isEmpty

/-- The phase of one in-flight `getAccessToken()` call under the
single-threaded cooperative scheduling model: the call has not yet run, or
it has issued refresh request number `reqIdx` after observing the stored
record `snapshot` and is awaiting the response, or it has finished with a
result. -/
inductive TaskPhase where
  | ready
  | awaiting (reqIdx : Nat) (snapshot : TokenData)
  | finished (result : Except SDKError (Option String))

/-- Global state of several concurrent `getAccessToken()` calls: the token
store, the per-call phases, the refresh tokens sent to the token endpoint in
request order, and how many refresh requests are (and at most were)
simultaneously in flight. -/
structure ConcState where
  store : Option TokenData
  tasks : List TaskPhase
  requests : List String
  inFlight : Nat
  maxInFlight : Nat

/-- One scheduler step of call `i`: a `ready` call runs `getAccessToken` up
to its first network suspension (reading the store, checking staleness and,
when stale with auto-refresh enabled, sending its refresh request); an
`awaiting` call receives its response, builds and stores the new record and
finishes, exactly as `refreshTokens` does.  The source holds no in-flight
refresh handle, so no collapsing of concurrent refreshes is modelled.
`server` answers refresh request number `i`. -/
def stepTask (now buffer : Int) (autoRefresh : Bool) (server : Nat → RefreshResponse)
    (st : ConcState) (i : Nat) : ConcState :=
  match st.tasks[i]? with
  | none => st
  | some (.finished _) => st
  | some (.awaiting reqIdx snapshot) =>
    let newTokens := newTokensFromRefresh now snapshot (server reqIdx)
    { st with store := some newTokens,
              tasks := st.tasks.set i (.finished (.ok (some newTokens.accessToken))),
              inFlight := st.inFlight - 1 }
  | some .ready =>
    match st.store with
    | none => { st with tasks := st.tasks.set i (.finished (.ok none)) }
    | some tokens =>
      if now ≥ tokens.expiresAt - buffer then
        if autoRefresh then
          { st with tasks := st.tasks.set i (.awaiting st.requests.length tokens),
                    requests := st.requests ++ [tokens.refreshToken],
                    inFlight := st.inFlight + 1,
                    maxInFlight := max st.maxInFlight (st.inFlight + 1) }
        else { st with tasks := st.tasks.set i (.finished (.error .tokenExpiredError)) }
      else { st with tasks := st.tasks.set i (.finished (.ok (some tokens.accessToken))) }

/-- Run a schedule: at each step the named call advances by one segment. -/
def runConc (now buffer : Int) (autoRefresh : Bool) (server : Nat → RefreshResponse)
    (init : ConcState) (sched : List Nat) : ConcState :=
  sched.foldl (stepTask now buffer autoRefresh server) init

/-- A stored record that is stale at time 1000000 with buffer 300000. -/
def staleTokens : TokenData := ⟨"oldAccess", "r0", 0, ["profile"]⟩

/-- A token endpoint that rotates tokens: refresh request `i` is answered
with access token `A<i>` and refresh token `R<i>`. -/
def rotatingServer : Nat → RefreshResponse := fun i =>
  ⟨"A" ++ toString i, some ("R" ++ toString i), 3600, none⟩

/-- Two concurrent `getAccessToken()` calls over the stale record. -/
def twoCallsInit : ConcState := ⟨some staleTokens, [.ready, .ready], [], 0, 0⟩

/-- C1 counterexample: with the stored record Stale and auto-refresh
enabled, the schedule that lets both of two concurrent `getAccessToken()`
calls reach their refresh request before either response arrives issues TWO
refresh requests against the token endpoint — not exactly one — has two
refreshes simultaneously in flight, and the two calls resolve to two
different access tokens when the server rotates per request. -/
theorem c1_counterexample_two_refreshes :
    (runConc 1000000 300000 true rotatingServer twoCallsInit [0, 1, 0, 1]).requests
        = ["r0", "r0"]
    ∧ (runConc 1000000 300000 true rotatingServer twoCallsInit [0, 1, 0, 1]).requests.length ≠ 1
    ∧ (runConc 1000000 300000 true rotatingServer twoCallsInit [0, 1, 0, 1]).maxInFlight = 2
    ∧ (runConc 1000000 300000 true rotatingServer twoCallsInit [0, 1, 0, 1]).tasks[0]?
        = some (.finished (.ok (some "A0")))
    ∧ (runConc 1000000 300000 true rotatingServer twoCallsInit [0, 1, 0, 1]).tasks[1]?
        = some (.finished (.ok (some "A1")))
    ∧ ("A0" : String) ≠ "A1" :=
  ⟨rfl, by decide, rfl, rfl, rfl, by decide⟩

/-- C1, amended: concurrent Stale `getAccessToken()` calls are NOT collapsed
into a single refresh.  Every call that observes a stale record with
auto-refresh enabled issues its own refresh request against the token
endpoint and adds one more refresh in flight, so N concurrent calls can put
N refresh requests in flight simultaneously and, under server-side rotation,
resolve to different access tokens. -/
theorem c1_refresh_not_collapsed (now buffer : Int) (server : Nat → RefreshResponse)
    (st : ConcState) (i : Nat) (t : TokenData)
    (hready : st.tasks[i]? = some .ready) (hstore : st.store = some t)
    (hstale : now ≥ t.expiresAt - buffer) :
    (stepTask now buffer true server st i).requests = st.requests ++ [t.refreshToken]
    ∧ (stepTask now buffer true server st i).inFlight = st.inFlight + 1 := by
  have hc : t.expiresAt ≤ now + buffer := by omega
  unfold stepTask
  rw [hready, hstore]
  simp [hc]

/-- C1 amended claim, checked at a concrete input: the first of the two
concurrent calls observes the stale record and issues its own refresh
request. -/
theorem c1_refresh_not_collapsed_witness :
    twoCallsInit.tasks[0]? = some TaskPhase.ready
    ∧ twoCallsInit.store = some staleTokens
    ∧ (1000000 : Int) ≥ staleTokens.expiresAt - 300000
    ∧ (stepTask 1000000 300000 true rotatingServer twoCallsInit 0).requests
        = twoCallsInit.requests ++ [staleTokens.refreshToken] :=
  ⟨rfl, rfl, by decide,
    (c1_refresh_not_collapsed 1000000 300000 rotatingServer twoCallsInit 0 staleTokens
      rfl rfl (by decide)).1⟩

/-- C2: when the token endpoint rejects the refresh token (an HTTP 401, for
which the transport's `handleError` raises `InvalidTokenError`),
`refreshTokens` surfaces exactly that invalid-token failure; moreover for
EVERY failing refresh the previously stored record is left unchanged in the
store, and no store operation (neither `setTokens` nor `clearTokens`) is
performed on the failure path. -/
theorem c2_refresh_failure_preserves_store (now : Int) (t : TokenData)
    (retryAfter : Option Nat) (body : ErrorBody) :
    (refreshTokens now (some t) (.error (handleError 401 retryAfter body))).result
        = .error (.invalidTokenError body.error_description)
    ∧ ∀ e : SDKError,
        (refreshTokens now (some t) (.error e)).store = some t
        ∧ (refreshTokens now (some t) (.error e)).storeOps = [] :=
  ⟨rfl, fun _ => ⟨rfl, rfl⟩⟩

/-- The record stored before the refresh of the C3 counterexample. -/
def prevTokens : TokenData := ⟨"oldAccess", "oldRefresh", 5000, ["profile"]⟩

/-- A refresh response that CONTAINS a `refresh_token` field, holding the
empty string. -/
def emptyRotationResp : RefreshResponse := ⟨"newAccess", some "", 3600, none⟩

/-- C3 counterexample: the response contains a server-supplied
`refresh_token` (the empty string), yet the newly stored record keeps the
previous refresh token `"oldRefresh"` instead of the server-supplied value:
`response.refresh_token || tokens.refreshToken` falls back on every falsy
string, not only on an absent field. -/
theorem c3_counterexample_empty_rotation :
    emptyRotationResp.refresh_token = some ""
    ∧ (refreshTokens 10000 (some prevTokens) (.ok emptyRotationResp)).store
        = some ⟨"newAccess", "oldRefresh", 3610000, ["profile"]⟩
    ∧ ("oldRefresh" : String) ≠ "" :=
  ⟨rfl, by decide, by decide⟩

/-- C3, amended: after every successful refresh the new record is stored,
and its refresh token is the server-supplied one when the response contains
a non-empty `refresh_token`; when the field is absent OR holds the falsy
empty string, the previous record's refresh token is retained unchanged. -/
theorem c3_refresh_token_retention (now : Int) (t : TokenData) (resp : RefreshResponse) :
    (refreshTokens now (some t) (.ok resp)).store = some (newTokensFromRefresh now t resp)
    ∧ (newTokensFromRefresh now t resp).refreshToken
        = match resp.refresh_token with
          | some s => if s = "" then t.refreshToken else s
          | none => t.refreshToken := by
  refine ⟨rfl, ?_⟩
  cases h : resp.refresh_token <;> simp [newTokensFromRefresh, jsOrString, h]

/-- C4: when no code verifier is stored for `oauthState` (never produced by
`startAuth`, or already consumed), `handleCallback` fails with the CSRF
`ValidationError`, issues no token-exchange request, and performs no store
operation, leaving the token store unchanged. -/
theorem c4_callback_unknown_state_fails_closed (now : Int)
    (pending : List (String × String)) (store : Option TokenData)
    (code oauthState : String) (server : Except SDKError TokenResponse)
    (h : lookupVerifier pending oauthState = none) :
    (handleCallback now pending store code oauthState server).result
        = .error (.validationError (some "Invalid state parameter - possible CSRF attack"))
    ∧ (handleCallback now pending store code oauthState server).requests = []
    ∧ (handleCallback now pending store code oauthState server).storeOps = []
    ∧ (handleCallback now pending store code oauthState server).store = store := by
  unfold handleCallback
  rw [h]
  exact ⟨rfl, rfl, rfl, rfl⟩

/-- C4, checked at a concrete input: an empty pending table stores no
verifier for state `"s1"`, so the callback fails closed with no exchange. -/
theorem c4_callback_unknown_state_witness :
    lookupVerifier [] "s1" = none
    ∧ (handleCallback 0 [] none "authcode" "s1"
        (.ok ⟨"a", "r", 3600, some "profile"⟩)).requests = [] :=
  ⟨rfl, (c4_callback_unknown_state_fails_closed 0 [] none "authcode" "s1"
      (.ok ⟨"a", "r", 3600, some "profile"⟩) rfl).2.1⟩

/-- C5: `logout` always ends with the token store cleared, the cached user
profile emptied and the sync queue cleared, for every client state and in
particular even when both the best-effort flush and the best-effort revoke
fail. -/
theorem c5_logout_always_clears {α : Type} (st : ClientState α)
    (flushFails revokeFails : Bool) :
    (logout st flushFails revokeFails).1.store = none
    ∧ (logout st flushFails revokeFails).1.currentUser = none
    ∧ syncQueueCleared (logout st flushFails revokeFails).1.syncManager = true := by
  refine ⟨rfl, rfl, ?_⟩
  unfold logout
  cases st.syncManager with
  | none => rfl
  | some m =>
    cases hp : hasPendingData m <;> cases flushFails <;>
      simp [hp, syncQueueCleared, clearMgr]

/-- C6: when the stored record expires more than the refresh buffer in the
future, `getAccessToken` resolves to the stored access token, performs no
network request and no store operation, and leaves the store unchanged. -/
theorem c6_fresh_token_no_network (now buffer : Int) (autoRefresh : Bool)
    (t : TokenData) (server : Except SDKError RefreshResponse)
    (h : buffer < t.expiresAt - now) :
    getAccessToken now buffer autoRefresh (some t) server
      = ⟨.ok (some t.accessToken), some t, [], []⟩ := by
  have hc : ¬ t.expiresAt ≤ now + buffer := by omega
  simp [getAccessToken, hc]

/-- C6, checked at a concrete input: a record expiring at 10000000 read at
time 0 with buffer 300000 is Fresh, and is returned without any request even
though the network is down. -/
theorem c6_fresh_token_no_network_witness :
    (300000 : Int) < (⟨"acc", "ref", 10000000, ["profile"]⟩ : TokenData).expiresAt - 0
    ∧ getAccessToken 0 300000 true (some ⟨"acc", "ref", 10000000, ["profile"]⟩)
        (.error (.networkError "down"))
      = ⟨.ok (some "acc"), some ⟨"acc", "ref", 10000000, ["profile"]⟩, [], []⟩ :=
  ⟨by decide, c6_fresh_token_no_network 0 300000 true ⟨"acc", "ref", 10000000, ["profile"]⟩
      (.error (.networkError "down")) (by decide)⟩

/-- C7 counterexample: with an empty token store, `getAccessToken` does NOT
fail — it resolves successfully with the JS `null` token value (`ok none`)
and issues no request; no "not authenticated" failure is raised by
`getAccessToken` itself. -/
theorem c7_counterexample_returns_null :
    (getAccessToken 0 300000 true none (.error (.networkError "down"))).result = .ok none
    ∧ (getAccessToken 0 300000 true none (.error (.networkError "down"))).requests = [] :=
  ⟨rfl, rfl⟩

/-- C7, amended: with no stored record, `getAccessToken` resolves to the JS
`null` token — no failure, no request, no store change; the
"Not authenticated" `InvalidTokenError` is raised one layer up, by
`authenticatedRequest`, when it observes the `null` access token. -/
theorem c7_no_record_yields_null (now buffer : Int) (autoRefresh : Bool)
    (server : Except SDKError RefreshResponse) :
    getAccessToken now buffer autoRefresh none server = ⟨.ok none, none, [], []⟩
    ∧ authenticatedRequestToken (.ok none)
        = .error (.invalidTokenError (some "Not authenticated")) :=
  ⟨rfl, rfl⟩

/-- C8: when the stored record is Stale and the auto-refresh attempt fails
with any error whatsoever, `isAuthenticated` swallows the failure and
resolves to `false` — an `ok` boolean, never a propagated error — leaving
the stored record in place. -/
theorem c8_is_authenticated_swallows_refresh_failure (now buffer : Int)
    (t : TokenData) (e : SDKError)
    (h : now ≥ t.expiresAt - buffer) :
    isAuthenticated now buffer true (some t) (.error e)
      = ⟨.ok false, some t, [.refreshGrant t.refreshToken]⟩ := by
  have hc : t.expiresAt ≤ now + buffer := by omega
  simp [isAuthenticated, refreshTokens, hc]

/-- C8, checked at a concrete input: a stale record whose refresh is
rejected yields `ok false`. -/
theorem c8_is_authenticated_swallows_witness :
    (1000000 : Int) ≥ staleTokens.expiresAt - 300000
    ∧ isAuthenticated 1000000 300000 true (some staleTokens)
        (.error (.invalidTokenError none))
      = ⟨.ok false, some staleTokens, [.refreshGrant "r0"]⟩ :=
  ⟨by decide, c8_is_authenticated_swallows_refresh_failure 1000000 300000 staleTokens
      (.invalidTokenError none) (by decide)⟩

/-- Looking a category up after setting one: the set entry is returned for
its own key and every other key is unaffected. -/
lemma lookupCat_setCat {α : Type} (q : SyncQueue α) (c cat : String) (o : Obj α) :
    lookupCat (setCat q c o) cat = if cat = c then some o else lookupCat q cat := by
  induction q with
  | nil =>
    by_cases h : cat = c
    · subst h
      simp [setCat, lookupCat]
    · have h3 : ¬ c = cat := fun hh => h hh.symm
      simp [setCat, lookupCat, h, h3]
  | cons head rest ih =>
    obtain ⟨c1, o1⟩ := head
    by_cases h1 : c1 = c
    · subst h1
      by_cases h2 : cat = c1
      · subst h2
        simp [setCat, lookupCat]
      · have h3 : ¬ c1 = cat := fun hh => h2 hh.symm
        simp [setCat, lookupCat, h2, h3]
    · by_cases h2 : cat = c1
      · subst h2
        simp [setCat, lookupCat, h1]
      · have h3 : ¬ c1 = cat := fun hh => h2 hh.symm
        simp [setCat, lookupCat, h1, h2, h3, ih]

/-- One `queue` call only changes the payload of its own category, where the
fields of the queued object win over what was pending. -/
lemma payloadAt_queueCall {α : Type} (q : SyncQueue α) (c cat f : String) (d : Obj α) :
    payloadAt (queueCall q c d) cat f
      = if cat = c then
          (match d f with | some v => some v | none => payloadAt q cat f)
        else payloadAt q cat f := by
  unfold payloadAt queueCall
  rw [lookupCat_setCat]
  by_cases h : cat = c
  · subst h
    cases hq : lookupCat q cat <;> cases hd : d f <;>
      simp [mergeObj, emptyObj, hq, hd]
  · simp [h]

/-- Folding a sequence of `queue` calls from any starting queue: per
category and field, the payload is the last-write-wins fold over exactly the
calls made to that category. -/
lemma payloadAt_foldl {α : Type} (cat f : String) (calls : List (String × Obj α)) :
    ∀ q : SyncQueue α,
      payloadAt (calls.foldl (fun q1 c => queueCall q1 c.1 c.2) q) cat f
        = (callsFor cat calls).foldl
            (fun acc d => match d f with | some v => some v | none => acc)
            (payloadAt q cat f) := by
  induction calls with
  | nil => intro q; rfl
  | cons c rest ih =>
    intro q
    rw [List.foldl_cons, ih, payloadAt_queueCall]
    by_cases h : c.1 = cat
    · rw [if_pos h.symm]
      simp only [callsFor, if_pos h, List.foldl_cons]
    · rw [if_neg (fun hh => h hh.symm)]
      simp only [callsFor, if_neg h]

/-- C9: within one debounce window, the flush payload is — per category and
field — exactly the field-wise shallow merge of all partial objects queued
for that category, the last-written value winning per field; and the
per-category payload depends only on the subsequence of calls made to that
category, so it is unchanged under any interleaving with calls to other
categories. -/
theorem c9_queue_merge_order_independent {α : Type}
    (calls calls2 : List (String × Obj α)) (cat f : String)
    (h : callsFor cat calls2 = callsFor cat calls) :
    payloadAt (runQueue calls) cat f = lastFieldValue (callsFor cat calls) f
    ∧ payloadAt (runQueue calls2) cat f = payloadAt (runQueue calls) cat f := by
  have h1 := payloadAt_foldl cat f calls []
  have h2 := payloadAt_foldl cat f calls2 []
  refine ⟨h1, ?_⟩
  rw [runQueue, runQueue, h1, h2, h]

/-- The partial objects of the C9 witness scenario: queue `{gold: 100}` and
then `{gold: 150, wood: 5}` under `farm_stats`, with a `play_stats` call in
between. -/
def demoFarmA : Obj Nat := fun f => if f = "gold" then some 100 else none

/-- Second demo object, for a different category. -/
def demoPlay : Obj Nat := fun f => if f = "xp" then some 7 else none

/-- Third demo object, overwriting `gold` and adding `wood`. -/
def demoFarmB : Obj Nat := fun f =>
  if f = "gold" then some 150 else if f = "wood" then some 5 else none

/-- Call sequence of the C9 witness. -/
def demoCalls : List (String × Obj Nat) :=
  [("farm_stats", demoFarmA), ("play_stats", demoPlay), ("farm_stats", demoFarmB)]

/-- The same calls with the `play_stats` call moved first: an interleaving
that differs only across categories. -/
def demoCalls2 : List (String × Obj Nat) :=
  [("play_stats", demoPlay), ("farm_stats", demoFarmA), ("farm_stats", demoFarmB)]

/-- C9, checked at a concrete input: reordering the cross-category
interleaving leaves each category's payload unchanged, and the merged
`farm_stats` payload is `{gold: 150, wood: 5}` with the last write winning
on `gold`. -/
theorem c9_queue_merge_witness :
    callsFor "farm_stats" demoCalls2 = callsFor "farm_stats" demoCalls
    ∧ payloadAt (runQueue demoCalls) "farm_stats" "gold"
        = lastFieldValue (callsFor "farm_stats" demoCalls) "gold"
    ∧ payloadAt (runQueue demoCalls2) "farm_stats" "gold"
        = payloadAt (runQueue demoCalls) "farm_stats" "gold"
    ∧ payloadAt (runQueue demoCalls) "farm_stats" "gold" = some 150
    ∧ payloadAt (runQueue demoCalls) "farm_stats" "wood" = some 5
    ∧ payloadAt (runQueue demoCalls) "play_stats" "xp" = some 7 :=
  ⟨rfl,
    (c9_queue_merge_order_independent demoCalls demoCalls2 "farm_stats" "gold" rfl).1,
    (c9_queue_merge_order_independent demoCalls demoCalls2 "farm_stats" "gold" rfl).2,
    by decide, by decide, by decide⟩

/-- C10: the first `getSyncManager` call on a client without a manager
constructs the manager with the given debounce interval; a subsequent call,
with ANY other debounce argument, returns that same manager and leaves the
client state unchanged, so the later argument has no effect. -/
theorem c10_get_sync_manager_idempotent {α : Type} (st : ClientState α) (d d2 : Nat)
    (h : st.syncManager = none) :
    (getSyncManager st d).1.debounceMs = d
    ∧ getSyncManager (getSyncManager st d).2 d2
        = ((getSyncManager st d).1, (getSyncManager st d).2) := by
  unfold getSyncManager
  rw [h]
  exact ⟨rfl, rfl⟩

/-- A client that has not created its sync manager yet. -/
def freshClient : ClientState Nat := ⟨none, none, none⟩

/-- C10, checked at a concrete input: the first call fixes `debounceMs` to
3000 and a second call with 5000 returns the same manager and state. -/
theorem c10_get_sync_manager_witness :
    freshClient.syncManager = none
    ∧ (getSyncManager freshClient 3000).1.debounceMs = 3000
    ∧ getSyncManager (getSyncManager freshClient 3000).2 5000
        = ((getSyncManager freshClient 3000).1, (getSyncManager freshClient 3000).2) :=
  ⟨rfl, (c10_get_sync_manager_idempotent freshClient 3000 5000 rfl).1,
    (c10_get_sync_manager_idempotent freshClient 3000 5000 rfl).2⟩
